import Mathlib

/-!
Verification of the capture/estimation/accumulation pipeline of
`src/applications/calib/main.cpp` (the Calibu `calib` application).

The per-tick control logic of the main event loop (lines 213-273 of
`main.cpp`) is embedded shallowly:

* external collaborators (video grab, conic finding, target matching, the
  PnP pose solver) are modelled as per-tick inputs supplied by the
  environment (`TickInput`, `CamTick`, `Det`);
* the `Calibrator` accumulator (declared in `calibu/calib/Calibrator.h`,
  whose source is not part of this tree) is modelled from the spec as
  append-only storage of frames and observations with handle validation;
* `Sophus::SE3d` poses are treated as opaque values (`Pose := ℤ`): the
  accumulation logic only ever assigns and copies them.

Coordinates are rationals; grid indices are integers (the matcher can
produce indices outside the declared grid, which is why `main.cpp` checks
bounds before adding an observation).
-/

namespace Calibu

/-- An opaque rigid-body pose (`Sophus::SE3d`).  The accumulation logic only
assigns and copies poses, so an abstract value suffices. -/
abbrev Pose := ℤ

/-- The pose `Sophus::SE3d(Sophus::SO3(), Eigen::Vector3d(0,0,1000))` used as
the placeholder seed of every frame at `AddFrame` time (main.cpp line 220). -/
def initialSeedPose : Pose := 1000

/-- Grid configuration: `grid_spacing` (main.cpp line 69, overridable from
argv) and `grid_size` (line 70, the constant `Eigen::Vector2i(19,10)`). -/
structure Config where
  gridSpacing : ℚ
  gridW : ℤ
  gridH : ℤ

/-- The built-in `grid_size = (19,10)` with the default US-Letter spacing
`0.254 / (19-1)` metres (= 127/9000 as a rational). -/
def defaultConfig : Config :=
  { gridSpacing := 127 / 9000, gridW := 19, gridH := 10 }

/-- One detected conic together with the grid index the target matcher
assigned to it: `pc` is `conics[p].center`, `pg` is `target.Map()[p].pg`
(main.cpp lines 263-264). -/
structure Det where
  pc : ℚ × ℚ
  pg : ℤ × ℤ
deriving DecidableEq

/-- Per-camera result of the external detection/matching/pose pipeline on one
tick: the `FindTarget` success flag (line 237), the detected conics with
their matched grid indices, and the `PosePnPRansac` output `T_hw` (line 250). -/
structure CamTick where
  tracking : Bool
  dets : List Det
  pose : Pose
deriving DecidableEq

/-- One accumulated observation: `AddObservation(calib_frame, calib_cams[iI],
pg3d, pc)` (main.cpp line 269). -/
structure Obs where
  frameIdx : ℕ
  camIdx : ℕ
  p3d : ℚ × ℚ × ℚ
  p2d : ℚ × ℚ
deriving DecidableEq

/-- Modelled from the spec: the Calibration Accumulator (`Calibrator`) owns
the registered cameras (dense indices in registration order), the committed
frames (one pose each) and the append-only observation list.  Its header is
not part of this source tree, so the storage behaviour follows the spec's
words. -/
structure CalibState where
  numCams : ℕ
  frames : List Pose
  obs : List Obs
deriving DecidableEq

/-- Modelled from the spec: `Calibrator::AddFrame(initial_pose)` appends a new
Frame with the given seed pose and returns its dense handle. -/
def addFrame (c : CalibState) (p : Pose) : ℕ × CalibState :=
  (c.frames.length, { c with frames := c.frames ++ [p] })

/-- Modelled from the spec: `Calibrator::AddObservation` appends an
Observation, and is a no-op when either handle is unknown. -/
def addObservation (c : CalibState) (fh ch : ℕ) (p3 : ℚ × ℚ × ℚ) (p2 : ℚ × ℚ) :
    CalibState :=
  if fh < c.frames.length ∧ ch < c.numCams then
    { c with obs := c.obs ++ [⟨fh, ch, p3, p2⟩] }
  else c

/-- Models the assignment `calibrator.GetFrame(calib_frame) = T_hw[iI]`
(main.cpp line 259): overwrite the stored pose of frame `k`. -/
def setFramePose (c : CalibState) (k : ℕ) (p : Pose) : CalibState :=
  { c with frames := c.frames.set k p }

/-- The bounds check of main.cpp line 266:
`0<= pg(0) && pg(0) < grid_size(0) && 0<= pg(1) && pg(1) < grid_size(1)`. -/
def InBounds (cfg : Config) (pg : ℤ × ℤ) : Prop :=
  0 ≤ pg.1 ∧ pg.1 < cfg.gridW ∧ 0 ≤ pg.2 ∧ pg.2 < cfg.gridH

instance (cfg : Config) (pg : ℤ × ℤ) : Decidable (InBounds cfg pg) := by
  unfold InBounds; infer_instance

/-- The 3D target point of a grid index:
`pg3d = grid_spacing * Eigen::Vector3d(pg(0), pg(1), 0)` (main.cpp line 268). -/
def gridPoint (cfg : Config) (pg : ℤ × ℤ) : ℚ × ℚ × ℚ :=
  (cfg.gridSpacing * (pg.1 : ℚ), cfg.gridSpacing * (pg.2 : ℚ), 0)

/-- The body of the observation loop `for(size_t p=0; p < ellipses.size();
++p)` (main.cpp lines 262-271): add an observation for the detection iff its
matched grid index is in bounds. -/
def addDet (cfg : Config) (k i : ℕ) (acc : CalibState) (d : Det) : CalibState :=
  if InBounds cfg d.pg then addObservation acc k i (gridPoint cfg d.pg) d.pc
  else acc

/-- The body of the per-camera branch `if(tracking_good[iI]) { ... }`
(main.cpp lines 242-273), restricted to its effect on the accumulator.
`cf` is `calib_frame` (`none` encodes `-1`), `t0` is the value of
`tracking_good[0]` (written when camera 0 was processed earlier this tick),
`i` is the camera index `iI`.  When tracking succeeded and a frame was
committed this tick, the frame pose is overwritten iff
`iI==0 || !tracking_good[0]` (line 257), and every matched correspondence
whose grid index is in bounds is appended as an observation (lines 262-271). -/
def procCam (cfg : Config) (cf : Option ℕ) (t0 : Bool) (i : ℕ) (ct : CamTick)
    (c : CalibState) : CalibState :=
  if ct.tracking then
    match cf with
    | some k =>
      let c1 := if i = 0 ∨ t0 = false then setFramePose c k ct.pose else c
      ct.dets.foldl (addDet cfg k i) c1
    | none => c
  else c

/-- The camera loop `for(size_t iI = 0; iI < N; ++iI)` (main.cpp line 229)
starting at index `i`, with `t0` the tracking flag of camera 0 on this tick. -/
def procCamsFrom (cfg : Config) (cf : Option ℕ) (t0 : Bool) :
    ℕ → List CamTick → CalibState → CalibState
  | _, [], c => c
  | i, ct :: rest, c =>
      procCamsFrom cfg cf t0 (i + 1) rest (procCam cfg cf t0 i ct c)

/-- The value the array entry `tracking_good[0]` holds after camera 0 has
been processed on a tick (line 237): the first camera's tracking flag. -/
def headTracking : List CamTick → Bool
  | [] => false
  | c0 :: _ => c0.tracking

/-- The full camera loop of one tick.  `tracking_good[0]` is assigned when
camera 0 is processed and read (line 257) only by later cameras, so it equals
the first camera's tracking flag. -/
def procCams (cfg : Config) (cf : Option ℕ) (cams : List CamTick)
    (c : CalibState) : CalibState :=
  procCamsFrom cfg cf (headTracking cams) 0 cams c

/-- Environment input for one iteration of the main loop: the grab result
(line 219), the per-camera detection/matching/pose results, and the user
events processed by `pangolin::FinishFrame` at the end of the iteration
(the step key, the space key toggling `run`, clicking the `add` checkbox). -/
structure TickInput where
  grabOk : Bool
  cams : List CamTick
  pressStep : Bool
  toggleRun : Bool
  toggleAdd : Bool
deriving DecidableEq

/-- The mutable state of the main event loop: `run` (`ui.Play video`, line
181), `add` (`ui.Add Frames`, line 186), the `step` flag (line 204), the
`frame` counter (line 213) and the accumulator. -/
structure LoopState where
  run : Bool
  add : Bool
  step : Bool
  frame : ℕ
  calib : CalibState
deriving DecidableEq

/-- The loop state on entry to the first iteration: `run` starts false,
`add` starts true, `step` starts false, `frame` starts 0, and `N` cameras
have been registered with `AddCamera` (lines 128-135, handles `0..N-1`). -/
def initState (n : ℕ) : LoopState :=
  { run := false, add := true, step := false, frame := 0,
    calib := { numCams := n, frames := [], obs := [] } }

/-- User events are processed by `pangolin::FinishFrame()` at the end of the
iteration: the space key toggles `run`, the step key sets `step`, and the UI
checkbox toggles `add`. -/
def applyEvents (inp : TickInput) (st : LoopState) : LoopState :=
  { st with
    run := if inp.toggleRun then !st.run else st.run,
    add := if inp.toggleAdd then !st.add else st.add,
    step := st.step || inp.pressStep }

/-- One iteration of the main event loop (main.cpp lines 213-357).
`go = (frame==0) || run || pangolin::Pushed(step)`: `||` short-circuits, so
`step` is consumed (reset) only when it is actually read.  When `go` and the
grab succeeds, `calib_frame = calibrator.AddFrame(...)` iff `add` (line 220)
and `frame` is incremented; on grab failure `run` is set false (line 223).
The camera loop always executes, with `calib_frame = -1` (`none`) unless a
frame was committed this iteration. -/
def tick (cfg : Config) (st : LoopState) (inp : TickInput) : LoopState :=
  let go : Bool := if st.frame = 0 ∨ st.run = true then true else st.step
  let st0 : LoopState :=
    { st with step := if st.frame = 0 ∨ st.run = true then st.step else false }
  let st1 : LoopState :=
    if go then
      if inp.grabOk then
        if st0.add then
          let fc := addFrame st0.calib initialSeedPose
          { st0 with frame := st0.frame + 1,
                     calib := procCams cfg (some fc.1) inp.cams fc.2 }
        else
          { st0 with frame := st0.frame + 1,
                     calib := procCams cfg none inp.cams st0.calib }
      else
        { st0 with run := false,
                   calib := procCams cfg none inp.cams st0.calib }
    else
      { st0 with calib := procCams cfg none inp.cams st0.calib }
  applyEvents inp st1

/-- A whole run of the main loop over a list of per-iteration inputs. -/
def runLoop (cfg : Config) (st : LoopState) (inps : List TickInput) :
    LoopState :=
  inps.foldl (tick cfg) st

/-- One registered video stream; the startup check only inspects
`PixFormat().channels` (main.cpp line 93). -/
structure StreamInfo where
  channels : ℕ
deriving DecidableEq

/-- The exception message thrown at main.cpp line 94. -/
def grayMsg : String :=
  "Video channels must be GRAY8 format. Use Convert:// or fmt=GRAY8 option"

/-- The startup loop of main.cpp lines 92-96: throw on the first stream that
is not single-channel. -/
def checkStreams : List StreamInfo → Except String Unit
  | [] => .ok ()
  | s :: rest => if s.channels = 1 then checkStreams rest else .error grayMsg

/-- The program from the stream-format check onwards: a thrown
`VideoException` aborts before the main loop is ever entered; otherwise the
main loop runs from the initial state with one registered camera per stream. -/
def mainProgram (cfg : Config) (streams : List StreamInfo)
    (inps : List TickInput) : Except String LoopState :=
  match checkStreams streams with
  | .error e => .error e
  | .ok _ => .ok (runLoop cfg (initState streams.length) inps)

/-- Frame count of a possibly-aborted run (an aborted run accumulated
nothing). -/
def resultNumFrames : Except String LoopState → ℕ
  | .error _ => 0
  | .ok st => st.calib.frames.length

/-- Observation count of a possibly-aborted run. -/
def resultNumObs : Except String LoopState → ℕ
  | .error _ => 0
  | .ok st => st.calib.obs.length

/-- The condition under which an iteration grabs a frame set:
`go = (frame==0) || run || pangolin::Pushed(step)`. -/
def goCond (st : LoopState) : Prop :=
  st.frame = 0 ∨ st.run = true ∨ st.step = true

instance (st : LoopState) : Decidable (goCond st) := by
  unfold goCond; infer_instance

/-- The observations one camera appends on a committed tick: one per
detection whose matched grid index is in bounds, in detection order. -/
def detObs (cfg : Config) (k i : ℕ) (dets : List Det) : List Obs :=
  (dets.filter fun d => decide (InBounds cfg d.pg)).map
    fun d => ⟨k, i, gridPoint cfg d.pg, d.pc⟩

/-- All observations the camera loop appends to the frame `k` committed this
tick, cameras numbered from `i`; `flen`/`nc` are the (loop-invariant) frame
and camera counts against which `AddObservation` validates its handles. -/
def camsObsFrom (cfg : Config) (flen nc k : ℕ) : ℕ → List CamTick → List Obs
  | _, [] => []
  | i, ct :: rest =>
      (if ct.tracking = true ∧ k < flen ∧ i < nc then detObs cfg k i ct.dets
       else [])
        ++ camsObsFrom cfg flen nc k (i + 1) rest

/-- The successive overwrites of the committed frame's pose performed by the
camera loop (cameras numbered from `i`, starting value `p`): camera `i`
writes its solved pose iff it tracks and `i==0 || !tracking_good[0]`. -/
def seedFoldFrom (t0 : Bool) : ℕ → List CamTick → Pose → Pose
  | _, [], p => p
  | i, ct :: rest, p =>
      seedFoldFrom t0 (i + 1) rest
        (if ct.tracking = true ∧ (i = 0 ∨ t0 = false) then ct.pose else p)

/-- The pose a committed frame holds at the end of its tick: camera 0's pose
if camera 0 tracked; otherwise the pose of the *last* camera that tracked
(each of them overwrites the frame in turn, since `!tracking_good[0]` holds
for all of them); the placeholder `dflt` if no camera tracked. -/
def finalSeedPose (dflt : Pose) : List CamTick → Pose
  | [] => dflt
  | c0 :: rest =>
      if c0.tracking then c0.pose
      else (((rest.filter fun ct => ct.tracking).map fun ct => ct.pose).getLastD
        dflt)

/-- An observation is well-formed for `cfg` when its 3D point is
`grid_spacing * (gx, gy, 0)` for some in-bounds grid index `(gx, gy)`. -/
def GoodObs (cfg : Config) (o : Obs) : Prop :=
  ∃ gx gy : ℤ, 0 ≤ gx ∧ gx < cfg.gridW ∧ 0 ≤ gy ∧ gy < cfg.gridH ∧
    o.p3d = gridPoint cfg (gx, gy)

/-- The per-tick input of the single-camera full-visibility scenario: the
grab succeeds, the camera tracks with the given detections and solved pose,
and the user holds the step key so the next iteration also grabs. -/
def c8Input (p : Pose) (dets : List Det) : TickInput :=
  { grabOk := true, cams := [{ tracking := true, dets := dets, pose := p }],
    pressStep := true, toggleRun := false, toggleAdd := false }

/-- A fully matched 3-by-3 block of grid points (all indices in bounds for
the 19-by-10 grid), used as a concrete full-visibility detection set. -/
def nineDets : List Det :=
  [{ pc := (0, 0), pg := (0, 0) }, { pc := (1, 0), pg := (1, 0) },
   { pc := (2, 0), pg := (2, 0) }, { pc := (0, 1), pg := (0, 1) },
   { pc := (1, 1), pg := (1, 1) }, { pc := (2, 1), pg := (2, 1) },
   { pc := (0, 2), pg := (0, 2) }, { pc := (1, 2), pg := (1, 2) },
   { pc := (2, 2), pg := (2, 2) }]

/-! ### Component lemmas: the accumulator operations -/

theorem addObservation_frames (c : CalibState) (fh ch : ℕ) (p3 : ℚ × ℚ × ℚ)
    (p2 : ℚ × ℚ) : (addObservation c fh ch p3 p2).frames = c.frames := by
  unfold addObservation; split <;> rfl

theorem addObservation_numCams (c : CalibState) (fh ch : ℕ) (p3 : ℚ × ℚ × ℚ)
    (p2 : ℚ × ℚ) : (addObservation c fh ch p3 p2).numCams = c.numCams := by
  unfold addObservation; split <;> rfl

theorem addDet_frames (cfg : Config) (k i : ℕ) (c : CalibState) (d : Det) :
    (addDet cfg k i c d).frames = c.frames := by
  unfold addDet; split <;> simp [addObservation_frames]

theorem addDet_numCams (cfg : Config) (k i : ℕ) (c : CalibState) (d : Det) :
    (addDet cfg k i c d).numCams = c.numCams := by
  unfold addDet; split <;> simp [addObservation_numCams]

theorem addDet_obs (cfg : Config) (k i : ℕ) (c : CalibState) (d : Det) :
    (addDet cfg k i c d).obs =
      c.obs ++
        (if InBounds cfg d.pg ∧ k < c.frames.length ∧ i < c.numCams then
          [⟨k, i, gridPoint cfg d.pg, d.pc⟩] else []) := by
  unfold addDet addObservation
  by_cases hb : InBounds cfg d.pg <;>
    by_cases hg : k < c.frames.length ∧ i < c.numCams <;>
      simp [hb, hg]

theorem foldl_addDet_frames (cfg : Config) (k i : ℕ) :
    ∀ (dets : List Det) (c : CalibState),
      (dets.foldl (addDet cfg k i) c).frames = c.frames
  | [], _ => rfl
  | d :: rest, c => by
    rw [List.foldl_cons, foldl_addDet_frames cfg k i rest, addDet_frames]

theorem foldl_addDet_numCams (cfg : Config) (k i : ℕ) :
    ∀ (dets : List Det) (c : CalibState),
      (dets.foldl (addDet cfg k i) c).numCams = c.numCams
  | [], _ => rfl
  | d :: rest, c => by
    rw [List.foldl_cons, foldl_addDet_numCams cfg k i rest, addDet_numCams]

theorem foldl_addDet_obs (cfg : Config) (k i : ℕ) :
    ∀ (dets : List Det) (c : CalibState),
      (dets.foldl (addDet cfg k i) c).obs =
        c.obs ++
          (if k < c.frames.length ∧ i < c.numCams then detObs cfg k i dets
           else [])
  | [], c => by simp [detObs]
  | d :: rest, c => by
    rw [List.foldl_cons, foldl_addDet_obs cfg k i rest, addDet_obs,
      addDet_frames, addDet_numCams]
    by_cases hb : InBounds cfg d.pg <;>
      by_cases hg : k < c.frames.length ∧ i < c.numCams <;>
        simp [hb, hg, detObs]

/-! ### Component lemmas: per-camera processing -/

theorem procCam_none (cfg : Config) (t0 : Bool) (i : ℕ) (ct : CamTick)
    (c : CalibState) : procCam cfg none t0 i ct c = c := by
  unfold procCam; split <;> rfl

theorem procCam_some_numCams (cfg : Config) (k : ℕ) (t0 : Bool) (i : ℕ)
    (ct : CamTick) (c : CalibState) :
    (procCam cfg (some k) t0 i ct c).numCams = c.numCams := by
  unfold procCam
  split
  · rw [foldl_addDet_numCams]
    split <;> rfl
  · rfl

theorem procCam_numCams (cfg : Config) (cf : Option ℕ) (t0 : Bool) (i : ℕ)
    (ct : CamTick) (c : CalibState) :
    (procCam cfg cf t0 i ct c).numCams = c.numCams := by
  cases cf
  · rw [procCam_none]
  · rw [procCam_some_numCams]

theorem procCam_some_frames (cfg : Config) (k : ℕ) (t0 : Bool) (i : ℕ)
    (ct : CamTick) (c : CalibState) :
    (procCam cfg (some k) t0 i ct c).frames =
      if ct.tracking = true ∧ (i = 0 ∨ t0 = false) then c.frames.set k ct.pose
      else c.frames := by
  unfold procCam
  split
  next hct =>
    dsimp only
    rw [foldl_addDet_frames]
    by_cases hw : i = 0 ∨ t0 = false <;> simp [hct, hw, setFramePose]
  next hct =>
    simp [hct]

theorem procCam_some_frames_length (cfg : Config) (k : ℕ) (t0 : Bool) (i : ℕ)
    (ct : CamTick) (c : CalibState) :
    (procCam cfg (some k) t0 i ct c).frames.length = c.frames.length := by
  rw [procCam_some_frames]; split <;> simp

theorem procCam_some_obs (cfg : Config) (k : ℕ) (t0 : Bool) (i : ℕ)
    (ct : CamTick) (c : CalibState) :
    (procCam cfg (some k) t0 i ct c).obs =
      c.obs ++
        (if ct.tracking = true ∧ k < c.frames.length ∧ i < c.numCams then
          detObs cfg k i ct.dets else []) := by
  unfold procCam
  split
  next hct =>
    dsimp only
    rw [foldl_addDet_obs]
    by_cases hw : i = 0 ∨ t0 = false <;>
      by_cases hg : k < c.frames.length ∧ i < c.numCams <;>
        simp [hct, hw, hg, setFramePose]
  next hct =>
    simp [hct]

/-! ### Component lemmas: the camera loop -/

theorem procCamsFrom_none (cfg : Config) (t0 : Bool) :
    ∀ (i : ℕ) (cams : List CamTick) (c : CalibState),
      procCamsFrom cfg none t0 i cams c = c
  | _, [], _ => rfl
  | i, ct :: rest, c => by
    rw [procCamsFrom, procCam_none]
    exact procCamsFrom_none cfg t0 (i + 1) rest c

theorem procCams_none (cfg : Config) (cams : List CamTick) (c : CalibState) :
    procCams cfg none cams c = c :=
  procCamsFrom_none cfg (headTracking cams) 0 cams c

theorem procCamsFrom_numCams (cfg : Config) (cf : Option ℕ) (t0 : Bool) :
    ∀ (i : ℕ) (cams : List CamTick) (c : CalibState),
      (procCamsFrom cfg cf t0 i cams c).numCams = c.numCams
  | _, [], _ => rfl
  | i, ct :: rest, c => by
    rw [procCamsFrom, procCamsFrom_numCams cfg cf t0 (i + 1) rest,
      procCam_numCams]

theorem procCams_numCams (cfg : Config) (cf : Option ℕ) (cams : List CamTick)
    (c : CalibState) : (procCams cfg cf cams c).numCams = c.numCams :=
  procCamsFrom_numCams cfg cf (headTracking cams) 0 cams c

theorem set_append_cons {α : Type} (v p : α) :
    ∀ (l₁ l₂ : List α), (l₁ ++ v :: l₂).set l₁.length p = l₁ ++ p :: l₂
  | [], _ => rfl
  | a :: t, l₂ => congrArg (a :: ·) (set_append_cons v p t l₂)

theorem procCamsFrom_some_frames (cfg : Config) (t0 : Bool) :
    ∀ (cams : List CamTick) (i : ℕ) (l₁ : List Pose) (v : Pose)
      (l₂ : List Pose) (c : CalibState), c.frames = l₁ ++ v :: l₂ →
      (procCamsFrom cfg (some l₁.length) t0 i cams c).frames =
        l₁ ++ seedFoldFrom t0 i cams v :: l₂
  | [], i, l₁, v, l₂, c, h => by rw [procCamsFrom, h, seedFoldFrom]
  | ct :: rest, i, l₁, v, l₂, c, h => by
    rw [procCamsFrom, seedFoldFrom]
    apply procCamsFrom_some_frames cfg t0 rest (i + 1) l₁ _ l₂
    rw [procCam_some_frames, h]
    split
    next hw => rw [set_append_cons]
    next hw => rfl

theorem procCamsFrom_some_obs (cfg : Config) (t0 : Bool) (k : ℕ) :
    ∀ (cams : List CamTick) (i : ℕ) (c : CalibState),
      (procCamsFrom cfg (some k) t0 i cams c).obs =
        c.obs ++ camsObsFrom cfg c.frames.length c.numCams k i cams
  | [], i, c => by rw [procCamsFrom, camsObsFrom]; simp
  | ct :: rest, i, c => by
    rw [procCamsFrom, camsObsFrom,
      procCamsFrom_some_obs cfg t0 k rest (i + 1),
      procCam_some_obs, procCam_some_frames_length, procCam_some_numCams,
      List.append_assoc]

/-! ### The final pose of a committed frame -/

theorem seedFoldFrom_true_succ :
    ∀ (cams : List CamTick) (i : ℕ) (p : Pose),
      seedFoldFrom true (i + 1) cams p = p
  | [], _, _ => rfl
  | ct :: rest, i, p => by
    rw [seedFoldFrom]
    have hc : ¬(ct.tracking = true ∧ (i + 1 = 0 ∨ true = false)) := by simp
    rw [if_neg hc]
    exact seedFoldFrom_true_succ rest (i + 1) p

theorem seedFoldFrom_false_succ :
    ∀ (cams : List CamTick) (i : ℕ) (p : Pose),
      seedFoldFrom false (i + 1) cams p =
        ((cams.filter fun ct => ct.tracking).map fun ct => ct.pose).getLastD p
  | [], _, _ => rfl
  | ct :: rest, i, p => by
    rw [seedFoldFrom, List.filter_cons]
    by_cases hct : ct.tracking = true
    · rw [if_pos ⟨hct, Or.inr rfl⟩, if_pos hct, List.map_cons,
        List.getLastD_cons]
      exact seedFoldFrom_false_succ rest (i + 1) ct.pose
    · rw [if_neg (fun hh => hct hh.1), if_neg hct]
      exact seedFoldFrom_false_succ rest (i + 1) p

theorem seedFold_eq_final (cams : List CamTick) (dflt : Pose) :
    seedFoldFrom (headTracking cams) 0 cams dflt = finalSeedPose dflt cams := by
  cases cams with
  | nil => rfl
  | cons c0 rest =>
    rw [headTracking, seedFoldFrom, finalSeedPose]
    by_cases h0 : c0.tracking = true
    · rw [if_pos ⟨h0, Or.inl rfl⟩, if_pos h0, h0]
      exact seedFoldFrom_true_succ rest 0 c0.pose
    · rw [if_neg (fun hh => h0 hh.1), if_neg h0,
        Bool.not_eq_true c0.tracking |>.mp h0]
      exact seedFoldFrom_false_succ rest 0 dflt

theorem procCams_commit_frames (cfg : Config) (cams : List CamTick)
    (c : CalibState) (l₁ : List Pose) (v : Pose) (h : c.frames = l₁ ++ [v]) :
    (procCams cfg (some l₁.length) cams c).frames =
      l₁ ++ [finalSeedPose v cams] := by
  rw [procCams, procCamsFrom_some_frames cfg (headTracking cams) cams 0 l₁ v
    [] c h, seedFold_eq_final]

theorem procCams_commit_obs (cfg : Config) (cams : List CamTick) (k : ℕ)
    (c : CalibState) :
    (procCams cfg (some k) cams c).obs =
      c.obs ++ camsObsFrom cfg c.frames.length c.numCams k 0 cams :=
  procCamsFrom_some_obs cfg (headTracking cams) k cams 0 c

/-! ### Tick-level characterization -/

theorem applyEvents_calib (inp : TickInput) (st : LoopState) :
    (applyEvents inp st).calib = st.calib := rfl

theorem tick_numCams (cfg : Config) (st : LoopState) (inp : TickInput) :
    (tick cfg st inp).calib.numCams = st.calib.numCams := by
  unfold tick applyEvents
  dsimp only
  repeat' split
  all_goals simp [addFrame, procCams_numCams, procCams_none]

theorem tick_frames (cfg : Config) (st : LoopState) (inp : TickInput) :
    (tick cfg st inp).calib.frames =
      if goCond st ∧ inp.grabOk = true ∧ st.add = true then
        st.calib.frames ++ [finalSeedPose initialSeedPose inp.cams]
      else st.calib.frames := by
  have hcommit :
      (procCams cfg (some st.calib.frames.length) inp.cams
        { st.calib with frames := st.calib.frames ++ [initialSeedPose] }).frames
        = st.calib.frames ++ [finalSeedPose initialSeedPose inp.cams] :=
    procCams_commit_frames cfg inp.cams _ st.calib.frames initialSeedPose rfl
  unfold tick applyEvents
  by_cases h0 : st.frame = 0 ∨ st.run = true
  · have hgo : goCond st := h0.elim (fun h => Or.inl h) (fun h => Or.inr (Or.inl h))
    simp only [if_pos h0, if_true]
    cases hgrab : inp.grabOk
    · simp [procCams_none, hgrab]
    · cases hadd : st.add
      · simp [procCams_none, hadd]
      · simp only [hadd, if_true, addFrame]
        rw [hcommit]
        simp [hgo]
  · simp only [if_neg h0]
    cases hs : st.step
    · have hngo : ¬goCond st := by
        intro h
        rcases h with h | h | h
        · exact h0 (Or.inl h)
        · exact h0 (Or.inr h)
        · rw [hs] at h; exact Bool.false_ne_true h
      simp [procCams_none, hngo]
    · have hgo : goCond st := Or.inr (Or.inr hs)
      simp only [if_true]
      cases hgrab : inp.grabOk
      · simp [procCams_none, hgrab]
      · cases hadd : st.add
        · simp [procCams_none, hadd]
        · simp only [hadd, if_true, addFrame]
          rw [hcommit]
          simp [hgo]

theorem tick_obs (cfg : Config) (st : LoopState) (inp : TickInput) :
    (tick cfg st inp).calib.obs =
      if goCond st ∧ inp.grabOk = true ∧ st.add = true then
        st.calib.obs ++
          camsObsFrom cfg (st.calib.frames.length + 1) st.calib.numCams
            st.calib.frames.length 0 inp.cams
      else st.calib.obs := by
  have hcommit :
      (procCams cfg (some st.calib.frames.length) inp.cams
        { st.calib with frames := st.calib.frames ++ [initialSeedPose] }).obs
        = st.calib.obs ++
            camsObsFrom cfg (st.calib.frames.length + 1) st.calib.numCams
              st.calib.frames.length 0 inp.cams := by
    rw [procCams_commit_obs]
    simp
  unfold tick applyEvents
  by_cases h0 : st.frame = 0 ∨ st.run = true
  · have hgo : goCond st := h0.elim (fun h => Or.inl h) (fun h => Or.inr (Or.inl h))
    simp only [if_pos h0, if_true]
    cases hgrab : inp.grabOk
    · simp [procCams_none, hgrab]
    · cases hadd : st.add
      · simp [procCams_none, hadd]
      · simp only [hadd, if_true, addFrame]
        rw [hcommit]
        simp [hgo]
  · simp only [if_neg h0]
    cases hs : st.step
    · have hngo : ¬goCond st := by
        intro h
        rcases h with h | h | h
        · exact h0 (Or.inl h)
        · exact h0 (Or.inr h)
        · rw [hs] at h; exact Bool.false_ne_true h
      simp [procCams_none, hngo]
    · have hgo : goCond st := Or.inr (Or.inr hs)
      simp only [if_true]
      cases hgrab : inp.grabOk
      · simp [procCams_none, hgrab]
      · cases hadd : st.add
        · simp [procCams_none, hadd]
        · simp only [hadd, if_true, addFrame]
          rw [hcommit]
          simp [hgo]

/-! ### Observation membership and the in-bounds invariant -/

theorem runLoop_nil (cfg : Config) (st : LoopState) : runLoop cfg st [] = st :=
  rfl

theorem runLoop_cons (cfg : Config) (st : LoopState) (inp : TickInput)
    (rest : List TickInput) :
    runLoop cfg st (inp :: rest) = runLoop cfg (tick cfg st inp) rest := rfl

theorem mem_detObs {cfg : Config} {k i : ℕ} {dets : List Det} {o : Obs}
    (h : o ∈ detObs cfg k i dets) :
    ∃ d ∈ dets, InBounds cfg d.pg ∧ o = ⟨k, i, gridPoint cfg d.pg, d.pc⟩ := by
  unfold detObs at h
  rcases List.mem_map.mp h with ⟨d, hd, rfl⟩
  rcases List.mem_filter.mp hd with ⟨hdm, hdb⟩
  exact ⟨d, hdm, of_decide_eq_true hdb, rfl⟩

theorem goodObs_of_mem_detObs {cfg : Config} {k i : ℕ} {dets : List Det}
    {o : Obs} (h : o ∈ detObs cfg k i dets) : GoodObs cfg o := by
  rcases mem_detObs h with ⟨d, _, hb, rfl⟩
  exact ⟨d.pg.1, d.pg.2, hb.1, hb.2.1, hb.2.2.1, hb.2.2.2, rfl⟩

theorem goodObs_of_mem_camsObsFrom (cfg : Config) (flen nc k : ℕ) :
    ∀ (i : ℕ) (cams : List CamTick) (o : Obs),
      o ∈ camsObsFrom cfg flen nc k i cams → GoodObs cfg o
  | _, [], o, h => absurd h (List.not_mem_nil o)
  | i, ct :: rest, o, h => by
    rw [camsObsFrom] at h
    rcases List.mem_append.mp h with h | h
    · split at h
      · exact goodObs_of_mem_detObs h
      · exact absurd h (List.not_mem_nil o)
    · exact goodObs_of_mem_camsObsFrom cfg flen nc k (i + 1) rest o h

theorem tick_obs_good (cfg : Config) (st : LoopState) (inp : TickInput)
    (h : ∀ o ∈ st.calib.obs, GoodObs cfg o) :
    ∀ o ∈ (tick cfg st inp).calib.obs, GoodObs cfg o := by
  intro o ho
  rw [tick_obs] at ho
  split at ho
  · rcases List.mem_append.mp ho with ho | ho
    · exact h o ho
    · exact goodObs_of_mem_camsObsFrom cfg _ _ _ 0 inp.cams o ho
  · exact h o ho

theorem runLoop_obs_good (cfg : Config) :
    ∀ (inps : List TickInput) (st : LoopState),
      (∀ o ∈ st.calib.obs, GoodObs cfg o) →
      ∀ o ∈ (runLoop cfg st inps).calib.obs, GoodObs cfg o
  | [], _, h => h
  | inp :: rest, st, h => by
    rw [runLoop_cons]
    exact runLoop_obs_good cfg rest (tick cfg st inp)
      (tick_obs_good cfg st inp h)

/-! ### Auxiliary facts about the loop flags and appended observations -/

theorem tick_add_of_no_toggle (cfg : Config) (st : LoopState) (inp : TickInput)
    (h : inp.toggleAdd = false) : (tick cfg st inp).add = st.add := by
  unfold tick applyEvents
  dsimp only
  repeat' split
  all_goals simp_all

theorem tick_step_of_press (cfg : Config) (st : LoopState) (inp : TickInput)
    (h : inp.pressStep = true) : (tick cfg st inp).step = true := by
  unfold tick applyEvents
  dsimp only
  repeat' split
  all_goals simp_all

theorem detObs_length (cfg : Config) (k i : ℕ) (dets : List Det)
    (h : ∀ x ∈ dets, InBounds cfg x.pg) :
    (detObs cfg k i dets).length = dets.length := by
  unfold detObs
  rw [List.length_map]
  have hf : dets.filter (fun d => decide (InBounds cfg d.pg)) = dets :=
    List.filter_eq_self.mpr (fun a ha => decide_eq_true (h a ha))
  rw [hf]

theorem camIdx_of_mem_detObs {cfg : Config} {k i : ℕ} {dets : List Det}
    {o : Obs} (h : o ∈ detObs cfg k i dets) : o.camIdx = i := by
  rcases mem_detObs h with ⟨d, _, _, rfl⟩
  rfl

/-! ### Claim C1: pose seeding -/

/-- C1 counterexample: three cameras on a committed first tick, camera 0
fails tracking, cameras 1 and 2 both track (with solver poses 5 and 7).
The committed Frame ends up with camera 2's pose (7), although the first
camera in registration order with successful tracking is camera 1 (pose 5):
the later camera overwrote the seed, contradicting the claim that the pose
is seeded exactly once from the first tracking-successful camera. -/
theorem c1_pose_seed_counterexample :
    (tick defaultConfig (initState 3)
        { grabOk := true,
          cams := [{ tracking := false, dets := [], pose := 0 },
                   { tracking := true, dets := [], pose := 5 },
                   { tracking := true, dets := [], pose := 7 }],
          pressStep := false, toggleRun := false,
          toggleAdd := false }).calib.frames = [7] ∧ (7 : Pose) ≠ 5 := by
  constructor
  · decide
  · decide

/-- C1 (amended): on a committed tick the Frame's final pose is
`finalSeedPose`: camera 0's pose if camera 0 tracked (seeded once, later
cameras add only observations); otherwise the pose of the last
tracking-successful camera, each tracking-successful camera having
overwritten the pose in turn; the placeholder seed if no camera tracked. -/
theorem c1_amended_frame_pose (cfg : Config) (st : LoopState) (inp : TickInput)
    (hgo : goCond st) (hgrab : inp.grabOk = true) (hadd : st.add = true) :
    (tick cfg st inp).calib.frames =
      st.calib.frames ++ [finalSeedPose initialSeedPose inp.cams] := by
  rw [tick_frames, if_pos ⟨hgo, hgrab, hadd⟩]

/-- C1 witness: the amended statement applied at a concrete two-camera tick
where only camera 0 tracks. -/
theorem c1_amended_frame_pose_witness :
    goCond (initState 2) ∧
      (tick defaultConfig (initState 2)
          { grabOk := true,
            cams := [{ tracking := true, dets := [], pose := 5 },
                     { tracking := false, dets := [], pose := 9 }],
            pressStep := false, toggleRun := false,
            toggleAdd := false }).calib.frames =
        (initState 2).calib.frames ++
          [finalSeedPose initialSeedPose
            [{ tracking := true, dets := [], pose := 5 },
             { tracking := false, dets := [], pose := 9 }]] :=
  ⟨Or.inl rfl,
    c1_amended_frame_pose defaultConfig (initState 2)
      { grabOk := true,
        cams := [{ tracking := true, dets := [], pose := 5 },
                 { tracking := false, dets := [], pose := 9 }],
        pressStep := false, toggleRun := false, toggleAdd := false }
      (Or.inl rfl) rfl rfl⟩

/-! ### Claim C2: when a Frame is created -/

/-- C2 counterexample: a first tick with commit enabled (`add` defaults to
true) and a successful grab on which the only camera fails tracking still
creates a Frame (left at the placeholder seed pose), because
`calibrator.AddFrame` is called before any tracking result is examined
(main.cpp line 220). -/
theorem c2_frame_creation_counterexample :
    (initState 1).calib.frames.length = 0 ∧
      (tick defaultConfig (initState 1)
          { grabOk := true,
            cams := [{ tracking := false, dets := [], pose := 0 }],
            pressStep := false, toggleRun := false,
            toggleAdd := false }).calib.frames.length = 1 := by
  constructor
  · decide
  · decide

/-- C2 (amended): a new Frame is created on a tick exactly when the loop
grabs (`go`), the grab succeeds, and commit (`add`) is enabled — regardless
of any camera's tracking result; in particular a committed tick on which
every camera fails tracking still produces a Frame. -/
theorem c2_amended_frame_creation (cfg : Config) (st : LoopState)
    (inp : TickInput) :
    (tick cfg st inp).calib.frames.length =
      st.calib.frames.length +
        (if goCond st ∧ inp.grabOk = true ∧ st.add = true then 1 else 0) := by
  rw [tick_frames]
  split <;> simp

/-! ### Claim C3: observation grid indices are in bounds -/

/-- C3: (i) every observation accumulated over any run from the initial
state has its 3D point built from an in-bounds grid index; (ii) a matched
correspondence whose grid index is out of bounds never produces an
observation: processing a tracking-successful camera whose only detection
is out of bounds leaves the observation list unchanged. -/
theorem c3_observation_grid_bounds (cfg : Config) (n : ℕ)
    (inps : List TickInput) :
    (∀ o ∈ (runLoop cfg (initState n) inps).calib.obs, GoodObs cfg o) ∧
      (∀ (k : ℕ) (t0 : Bool) (i : ℕ) (c : CalibState) (p : Pose) (pc : ℚ × ℚ)
          (pg : ℤ × ℤ), ¬InBounds cfg pg →
        (procCam cfg (some k) t0 i
            { tracking := true, dets := [{ pc := pc, pg := pg }], pose := p }
            c).obs = c.obs) := by
  constructor
  · exact runLoop_obs_good cfg inps (initState n)
      (fun o ho => absurd ho (List.not_mem_nil o))
  · intro k t0 i c p pc pg hpg
    rw [procCam_some_obs]
    split
    · simp [detObs, hpg]
    · simp

/-- C3 witness: the invariant applied to an observation produced by a
concrete run, and the rejection applied to the matched grid index (19, 0)
against the declared 19-by-10 grid. -/
theorem c3_observation_grid_bounds_witness :
    GoodObs defaultConfig
        { frameIdx := 0, camIdx := 0,
          p3d := gridPoint defaultConfig (2, 5), p2d := (3, 4) } ∧
      (procCam defaultConfig (some 0) false 0
          { tracking := true, dets := [{ pc := (9, 9), pg := (19, 0) }],
            pose := 42 }
          { numCams := 1, frames := [1000], obs := [] }).obs = [] :=
  ⟨(c3_observation_grid_bounds defaultConfig 1
      [{ grabOk := true,
         cams := [{ tracking := true,
                    dets := [{ pc := (3, 4), pg := (2, 5) }], pose := 42 }],
         pressStep := false, toggleRun := false, toggleAdd := false }]).1
    _ (by
      rw [runLoop_cons, runLoop_nil, tick_obs, if_pos ⟨Or.inl rfl, rfl, rfl⟩]
      simp [camsObsFrom, detObs, InBounds, defaultConfig, initState]),
   (c3_observation_grid_bounds defaultConfig 1 []).2 0 false 0
    { numCams := 1, frames := [1000], obs := [] } 42 (9, 9) (19, 0)
    (by decide)⟩

/-! ### Claim C4: frame count is monotone -/

/-- C4: on every tick the accumulated frame list is only ever extended —
the old frames are a prefix of the new ones (never deleted, never
reordered), the count never decreases, and it grows by at most one per
tick. -/
theorem c4_frames_monotone (cfg : Config) (st : LoopState) (inp : TickInput) :
    st.calib.frames.length ≤ (tick cfg st inp).calib.frames.length ∧
      (tick cfg st inp).calib.frames.length ≤ st.calib.frames.length + 1 ∧
      ∃ t : List Pose,
        (tick cfg st inp).calib.frames = st.calib.frames ++ t ∧ t.length ≤ 1 := by
  rw [tick_frames]
  split
  · refine ⟨by simp, by simp, [finalSeedPose initialSeedPose inp.cams], rfl, ?_⟩
    simp
  · exact ⟨le_refl _, by simp, [], by simp, by simp⟩

/-! ### Claim C5: per-camera failure isolation -/

/-- C5: (i) a camera whose tracking fails on a tick leaves the accumulator
exactly as it found it (no observations, no pose write); (ii) in the
two-camera scenario where camera A (index 0) tracks and camera B (index 1)
fails on a committed tick, exactly one Frame is appended, seeded with camera
A's pose, and the appended observations are exactly camera A's in-bounds
detections, all carrying camera index 0. -/
theorem c5_tracking_failure_isolation (cfg : Config) :
    (∀ (cf : Option ℕ) (t0 : Bool) (i : ℕ) (ct : CamTick) (c : CalibState),
        ct.tracking = false → procCam cfg cf t0 i ct c = c) ∧
      (∀ (st : LoopState) (inp : TickInput) (pA pB : Pose) (dA dB : List Det),
        goCond st → inp.grabOk = true → st.add = true →
        inp.cams = [{ tracking := true, dets := dA, pose := pA },
                    { tracking := false, dets := dB, pose := pB }] →
        st.calib.numCams = 2 →
        (tick cfg st inp).calib.frames = st.calib.frames ++ [pA] ∧
          (tick cfg st inp).calib.obs =
            st.calib.obs ++ detObs cfg st.calib.frames.length 0 dA ∧
          ∀ o ∈ detObs cfg st.calib.frames.length 0 dA, o.camIdx = 0) := by
  constructor
  · intro cf t0 i ct c h
    unfold procCam
    simp [h]
  · intro st inp pA pB dA dB hgo hgrab hadd hcams hnc
    refine ⟨?_, ?_, fun o ho => camIdx_of_mem_detObs ho⟩
    · rw [tick_frames, if_pos ⟨hgo, hgrab, hadd⟩, hcams]
      simp [finalSeedPose]
    · rw [tick_obs, if_pos ⟨hgo, hgrab, hadd⟩, hcams, hnc]
      simp [camsObsFrom, Nat.lt_succ_self]

/-- C5 witness: the scenario part applied at a concrete committed first tick
with two registered cameras, A tracking with one detection and B failing. -/
theorem c5_tracking_failure_isolation_witness :
    goCond (initState 2) ∧
      ((tick defaultConfig (initState 2)
          { grabOk := true,
            cams := [{ tracking := true, dets := [{ pc := (1, 2), pg := (3, 4) }],
                       pose := 11 },
                     { tracking := false, dets := [{ pc := (5, 6), pg := (7, 8) }],
                       pose := 13 }],
            pressStep := false, toggleRun := false,
            toggleAdd := false }).calib.frames =
          (initState 2).calib.frames ++ [11] ∧
        (tick defaultConfig (initState 2)
            { grabOk := true,
              cams := [{ tracking := true, dets := [{ pc := (1, 2), pg := (3, 4) }],
                         pose := 11 },
                       { tracking := false, dets := [{ pc := (5, 6), pg := (7, 8) }],
                         pose := 13 }],
              pressStep := false, toggleRun := false,
              toggleAdd := false }).calib.obs =
          (initState 2).calib.obs ++
            detObs defaultConfig (initState 2).calib.frames.length 0
              [{ pc := (1, 2), pg := (3, 4) }] ∧
        ∀ o ∈ detObs defaultConfig (initState 2).calib.frames.length 0
            [{ pc := (1, 2), pg := (3, 4) }], o.camIdx = 0) :=
  ⟨Or.inl rfl,
    (c5_tracking_failure_isolation defaultConfig).2 (initState 2)
      { grabOk := true,
        cams := [{ tracking := true, dets := [{ pc := (1, 2), pg := (3, 4) }],
                   pose := 11 },
                 { tracking := false, dets := [{ pc := (5, 6), pg := (7, 8) }],
                   pose := 13 }],
        pressStep := false, toggleRun := false, toggleAdd := false }
      11 13 [{ pc := (1, 2), pg := (3, 4) }] [{ pc := (5, 6), pg := (7, 8) }]
      (Or.inl rfl) rfl rfl rfl rfl⟩

/-! ### Claim C6: grab failure pauses without discarding -/

/-- C6: on a tick that attempts a grab (`go`) and whose grab fails, the
`run` flag is false at the end of the tick (no space-key press pending) and
the accumulator — all frames and observations — is exactly what it was
before the tick. -/
theorem c6_grab_failure_pauses (cfg : Config) (st : LoopState)
    (inp : TickInput) (hgo : goCond st) (hgrab : inp.grabOk = false)
    (hrun : inp.toggleRun = false) :
    (tick cfg st inp).run = false ∧ (tick cfg st inp).calib = st.calib := by
  unfold tick applyEvents
  dsimp only
  by_cases h0 : st.frame = 0 ∨ st.run = true
  · simp [h0, hgrab, hrun, procCams_none]
  · have hs : st.step = true := by
      rcases hgo with h | h | h
      · exact absurd (Or.inl h) h0
      · exact absurd (Or.inr h) h0
      · exact h
    simp [h0, hs, hgrab, hrun, procCams_none]

/-- C6 witness: the theorem applied at a concrete running state with one
accumulated frame when the grab fails. -/
theorem c6_grab_failure_pauses_witness :
    goCond { run := true, add := true, step := false, frame := 3,
             calib := { numCams := 1, frames := [4], obs := [] } } ∧
      ((tick defaultConfig
          { run := true, add := true, step := false, frame := 3,
            calib := { numCams := 1, frames := [4], obs := [] } }
          { grabOk := false, cams := [], pressStep := false,
            toggleRun := false, toggleAdd := false }).run = false ∧
        (tick defaultConfig
            { run := true, add := true, step := false, frame := 3,
              calib := { numCams := 1, frames := [4], obs := [] } }
            { grabOk := false, cams := [], pressStep := false,
              toggleRun := false, toggleAdd := false }).calib =
          { numCams := 1, frames := [4], obs := [] }) :=
  ⟨Or.inr (Or.inl rfl),
    c6_grab_failure_pauses defaultConfig
      { run := true, add := true, step := false, frame := 3,
        calib := { numCams := 1, frames := [4], obs := [] } }
      { grabOk := false, cams := [], pressStep := false,
        toggleRun := false, toggleAdd := false }
      (Or.inr (Or.inl rfl)) rfl rfl⟩

/-! ### Claim C7: non-grayscale streams abort at startup -/

theorem checkStreams_error : ∀ (streams : List StreamInfo),
    (∃ s ∈ streams, s.channels ≠ 1) → checkStreams streams = .error grayMsg
  | [], h => by
    rcases h with ⟨s, hs, _⟩
    exact absurd hs (List.not_mem_nil s)
  | s :: rest, h => by
    rw [checkStreams]
    by_cases h1 : s.channels = 1
    · rw [if_pos h1]
      apply checkStreams_error rest
      rcases h with ⟨t, ht, htc⟩
      rcases List.mem_cons.mp ht with heq | ht2
      · exact absurd (by rw [heq]; exact h1) htc
      · exact ⟨t, ht2, htc⟩
    · rw [if_neg h1]

/-- C7: when any registered stream is not single-channel, the program
aborts with the `VideoException` message before the main loop runs, and the
aborted run has zero accumulated frames and observations. -/
theorem c7_nongray_stream_aborts (cfg : Config) (streams : List StreamInfo)
    (inps : List TickInput) (h : ∃ s ∈ streams, s.channels ≠ 1) :
    mainProgram cfg streams inps = .error grayMsg ∧
      resultNumFrames (mainProgram cfg streams inps) = 0 ∧
      resultNumObs (mainProgram cfg streams inps) = 0 := by
  have hmain : mainProgram cfg streams inps = .error grayMsg := by
    unfold mainProgram
    rw [checkStreams_error streams h]
  exact ⟨hmain, by rw [hmain]; rfl, by rw [hmain]; rfl⟩

/-- C7 witness: the theorem applied to a single three-channel (RGB) stream. -/
theorem c7_nongray_stream_aborts_witness :
    (∃ s ∈ [({ channels := 3 } : StreamInfo)], s.channels ≠ 1) ∧
      (mainProgram defaultConfig [{ channels := 3 }] [] = .error grayMsg ∧
        resultNumFrames (mainProgram defaultConfig [{ channels := 3 }] []) = 0 ∧
        resultNumObs (mainProgram defaultConfig [{ channels := 3 }] []) = 0) :=
  ⟨⟨{ channels := 3 }, List.mem_singleton_self _, by decide⟩,
    c7_nongray_stream_aborts defaultConfig [{ channels := 3 }] []
      ⟨{ channels := 3 }, List.mem_singleton_self _, by decide⟩⟩

/-! ### Claim C8: the five-tick single-camera scenario -/

theorem commit_tick_facts (cfg : Config) (st : LoopState) (p : Pose)
    (dets : List Det) (hadd : st.add = true) (hgo : goCond st)
    (hnc : st.calib.numCams = 1) :
    (tick cfg st (c8Input p dets)).add = true ∧
      (tick cfg st (c8Input p dets)).step = true ∧
      (tick cfg st (c8Input p dets)).calib.numCams = 1 ∧
      (tick cfg st (c8Input p dets)).calib.frames = st.calib.frames ++ [p] ∧
      (tick cfg st (c8Input p dets)).calib.obs =
        st.calib.obs ++ detObs cfg st.calib.frames.length 0 dets := by
  refine ⟨?_, ?_, ?_, ?_, ?_⟩
  · rw [tick_add_of_no_toggle cfg st _ rfl, hadd]
  · exact tick_step_of_press cfg st _ rfl
  · rw [tick_numCams, hnc]
  · rw [tick_frames, if_pos ⟨hgo, rfl, hadd⟩]
    simp [c8Input, finalSeedPose]
  · rw [tick_obs, if_pos ⟨hgo, rfl, hadd⟩, hnc]
    simp [c8Input, camsObsFrom, Nat.lt_succ_self]

/-- C8: one registered camera, commit enabled throughout, tracking
succeeding with 9 in-bounds matched grid points on each of 5 consecutive
grabbed ticks: exactly 5 Frames and 45 Observations are accumulated, the
t-th Frame holds the camera's pose estimate of tick t, and every
Observation belongs to camera 0. -/
theorem c8_five_tick_scenario (cfg : Config) (p : ℕ → Pose)
    (d : ℕ → List Det) (hlen : ∀ t, (d t).length = 9)
    (hin : ∀ t, ∀ x ∈ d t, InBounds cfg x.pg) :
    (runLoop cfg (initState 1)
        [c8Input (p 0) (d 0), c8Input (p 1) (d 1), c8Input (p 2) (d 2),
         c8Input (p 3) (d 3), c8Input (p 4) (d 4)]).calib.frames =
      [p 0, p 1, p 2, p 3, p 4] ∧
      (runLoop cfg (initState 1)
          [c8Input (p 0) (d 0), c8Input (p 1) (d 1), c8Input (p 2) (d 2),
           c8Input (p 3) (d 3), c8Input (p 4) (d 4)]).calib.obs.length = 45 ∧
      ∀ o ∈ (runLoop cfg (initState 1)
          [c8Input (p 0) (d 0), c8Input (p 1) (d 1), c8Input (p 2) (d 2),
           c8Input (p 3) (d 3), c8Input (p 4) (d 4)]).calib.obs,
        o.camIdx = 0 := by
  have hD : ∀ (k t : ℕ), (detObs cfg k 0 (d t)).length = 9 := by
    intro k t
    rw [detObs_length cfg k 0 (d t) (hin t)]
    exact hlen t
  set st0 := initState 1 with hst0
  obtain ⟨a1, s1, n1, f1, o1⟩ :=
    commit_tick_facts cfg st0 (p 0) (d 0) rfl (Or.inl rfl) rfl
  set st1 := tick cfg st0 (c8Input (p 0) (d 0)) with hst1
  obtain ⟨a2, s2, n2, f2, o2⟩ :=
    commit_tick_facts cfg st1 (p 1) (d 1) a1 (Or.inr (Or.inr s1)) n1
  set st2 := tick cfg st1 (c8Input (p 1) (d 1)) with hst2
  obtain ⟨a3, s3, n3, f3, o3⟩ :=
    commit_tick_facts cfg st2 (p 2) (d 2) a2 (Or.inr (Or.inr s2)) n2
  set st3 := tick cfg st2 (c8Input (p 2) (d 2)) with hst3
  obtain ⟨a4, s4, n4, f4, o4⟩ :=
    commit_tick_facts cfg st3 (p 3) (d 3) a3 (Or.inr (Or.inr s3)) n3
  set st4 := tick cfg st3 (c8Input (p 3) (d 3)) with hst4
  obtain ⟨a5, s5, n5, f5, o5⟩ :=
    commit_tick_facts cfg st4 (p 4) (d 4) a4 (Or.inr (Or.inr s4)) n4
  have hrun : runLoop cfg st0
      [c8Input (p 0) (d 0), c8Input (p 1) (d 1), c8Input (p 2) (d 2),
       c8Input (p 3) (d 3), c8Input (p 4) (d 4)] =
      tick cfg st4 (c8Input (p 4) (d 4)) := by
    rw [runLoop_cons, runLoop_cons, runLoop_cons, runLoop_cons, runLoop_cons,
      runLoop_nil, ← hst1, ← hst2, ← hst3, ← hst4]
  have hframes0 : st0.calib.frames = [] := rfl
  have hobs0 : st0.calib.obs = [] := rfl
  refine ⟨?_, ?_, ?_⟩
  · rw [hrun, f5, f4, f3, f2, f1, hframes0]
    rfl
  · rw [hrun, o5, o4, o3, o2, o1, hobs0]
    simp [hD]
  · rw [hrun, o5, o4, o3, o2, o1, hobs0]
    intro o ho
    simp only [List.nil_append, List.mem_append] at ho
    rcases ho with ((((h | h) | h) | h) | h) <;>
      exact camIdx_of_mem_detObs h

/-- C8 witness: the scenario applied with a constant pose estimate 20 and
the same fully-visible 3-by-3 detection block on every tick. -/
theorem c8_five_tick_scenario_witness :
    (∀ _t : ℕ, nineDets.length = 9) ∧
      (runLoop defaultConfig (initState 1)
          [c8Input 20 nineDets, c8Input 20 nineDets, c8Input 20 nineDets,
           c8Input 20 nineDets, c8Input 20 nineDets]).calib.frames =
        [20, 20, 20, 20, 20] ∧
      (runLoop defaultConfig (initState 1)
          [c8Input 20 nineDets, c8Input 20 nineDets, c8Input 20 nineDets,
           c8Input 20 nineDets, c8Input 20 nineDets]).calib.obs.length = 45 :=
  ⟨fun _ => rfl,
    (c8_five_tick_scenario defaultConfig (fun _ => 20) (fun _ => nineDets)
        (fun _ => rfl)
        (fun _ => (by decide : ∀ x ∈ nineDets, InBounds defaultConfig x.pg))).1,
    (c8_five_tick_scenario defaultConfig (fun _ => 20) (fun _ => nineDets)
        (fun _ => rfl)
        (fun _ => (by decide : ∀ x ∈ nineDets, InBounds defaultConfig x.pg))).2.1⟩

/-! ### Claim C9: the first iteration grabs and commits unconditionally -/

/-- C9: on entry to the loop `run` is false, `step` is false and `add` is
true; yet the first iteration (frame counter 0) grabs, and — the grab
succeeding — commits a calibration Frame: afterwards exactly one Frame
exists and the frame counter is 1, before the user has started playback. -/
theorem c9_first_tick_commits (cfg : Config) (n : ℕ) (inp : TickInput)
    (hgrab : inp.grabOk = true) :
    (initState n).run = false ∧ (initState n).step = false ∧
      (initState n).add = true ∧
      (tick cfg (initState n) inp).calib.frames.length = 1 ∧
      (tick cfg (initState n) inp).frame = 1 := by
  refine ⟨rfl, rfl, rfl, ?_, ?_⟩
  · rw [tick_frames, if_pos ⟨Or.inl rfl, hgrab, rfl⟩]
    simp [initState]
  · unfold tick applyEvents
    dsimp only
    simp [initState, hgrab]

/-- C9 witness: the theorem applied at a first tick with one camera that
does not even track (the Frame is committed regardless). -/
theorem c9_first_tick_commits_witness :
    ({ grabOk := true, cams := [{ tracking := false, dets := [], pose := 0 }],
       pressStep := false, toggleRun := false,
       toggleAdd := false } : TickInput).grabOk = true ∧
      ((initState 1).run = false ∧ (initState 1).step = false ∧
        (initState 1).add = true ∧
        (tick defaultConfig (initState 1)
            { grabOk := true,
              cams := [{ tracking := false, dets := [], pose := 0 }],
              pressStep := false, toggleRun := false,
              toggleAdd := false }).calib.frames.length = 1 ∧
        (tick defaultConfig (initState 1)
            { grabOk := true,
              cams := [{ tracking := false, dets := [], pose := 0 }],
              pressStep := false, toggleRun := false,
              toggleAdd := false }).frame = 1) :=
  ⟨rfl,
    c9_first_tick_commits defaultConfig 1
      { grabOk := true, cams := [{ tracking := false, dets := [], pose := 0 }],
        pressStep := false, toggleRun := false, toggleAdd := false } rfl⟩

/-! ### Claim C10: observation 3D points lie in the target plane -/

/-- C10: every observation accumulated over any run from the initial state
has its 3D point equal to `grid_spacing * (gx, gy, 0)` for some (in-bounds)
grid index, and in particular its z-coordinate is 0: all committed 3D
points lie in the target plane z = 0. -/
theorem c10_observation_point_in_plane (cfg : Config) (n : ℕ)
    (inps : List TickInput) :
    ∀ o ∈ (runLoop cfg (initState n) inps).calib.obs,
      (∃ gx gy : ℤ,
          o.p3d = (cfg.gridSpacing * (gx : ℚ), cfg.gridSpacing * (gy : ℚ), 0)) ∧
        o.p3d.2.2 = 0 := by
  intro o ho
  have hg := runLoop_obs_good cfg inps (initState n)
    (fun x hx => absurd hx (List.not_mem_nil x)) o ho
  rcases hg with ⟨gx, gy, _, _, _, _, hp⟩
  refine ⟨⟨gx, gy, ?_⟩, ?_⟩
  · rw [hp]; rfl
  · rw [hp]; rfl

/-- C10 witness: the theorem applied to the observation produced by a
concrete single-tick run with one in-bounds detection at grid index (1, 1). -/
theorem c10_observation_point_in_plane_witness :
    (∃ gx gy : ℤ,
        ({ frameIdx := 0, camIdx := 0, p3d := gridPoint defaultConfig (1, 1),
           p2d := (7, 8) } : Obs).p3d =
          (defaultConfig.gridSpacing * (gx : ℚ),
           defaultConfig.gridSpacing * (gy : ℚ), 0)) ∧
      ({ frameIdx := 0, camIdx := 0, p3d := gridPoint defaultConfig (1, 1),
         p2d := (7, 8) } : Obs).p3d.2.2 = 0 :=
  c10_observation_point_in_plane defaultConfig 1
    [{ grabOk := true,
       cams := [{ tracking := true, dets := [{ pc := (7, 8), pg := (1, 1) }],
                  pose := 42 }],
       pressStep := false, toggleRun := false, toggleAdd := false }] _
    (by
      rw [runLoop_cons, runLoop_nil, tick_obs, if_pos ⟨Or.inl rfl, rfl, rfl⟩]
      simp [camsObsFrom, detObs, InBounds, defaultConfig, initState])

end Calibu
